import Mathlib

/-!
Verification development for the SCHEDULEPOSTER application/session
bookkeeping core (`src/utils/application_manager.py`) and its analytics
companion (`src/utils/analytics.py`).

Modelling conventions (shallow embedding):
* Python `dict`s (which preserve insertion order) are modelled as
  association lists `List (κ × α)`; `dget`/`dinsert`/membership mirror
  `d[k]` / `d[k] = v` / `k in d`.
* Timestamps (`datetime` values, stored as ISO strings in the JSON files)
  are modelled as integers; `timedelta(days = d)` becomes `d * dayLength`.
  Comparisons between timestamps map to integer comparisons, which is
  faithful because ISO-ordered datetimes compare like instants.
* The wall clock (`datetime.now(...)`) is passed to each operation as an
  explicit `now` argument.
* The on-disk JSON file is a `PyVal` document held in the state; `_save_data`
  replaces it with the serialisation of the in-memory maps.
-/

/-- Association-list lookup, mirroring Python `d[k]` / `d.get(k)` (first
matching key; the managers only ever build duplicate-free key lists). -/
def dget {κ α : Type} [DecidableEq κ] : List (κ × α) → κ → Option α
  | [], _ => none
  | (k', v') :: rest, k => if k' = k then some v' else dget rest k

/-- Association-list update, mirroring Python `d[k] = v`: an existing key
keeps its position (insertion order is preserved), a new key is appended. -/
def dinsert {κ α : Type} [DecidableEq κ] : List (κ × α) → κ → α → List (κ × α)
  | [], k, v => [(k, v)]
  | (k', v') :: rest, k, v =>
      if k' = k then (k, v) :: rest else (k', v') :: dinsert rest k v

/-- Keys of an association list, in order. -/
def dkeys {κ α : Type} (m : List (κ × α)) : List κ := m.map (·.1)

theorem dget_dinsert_self {κ α : Type} [DecidableEq κ] (m : List (κ × α)) (k : κ) (v : α) :
    dget (dinsert m k v) k = some v := by
  induction m with
  | nil => simp [dinsert, dget]
  | cons hd tl ih =>
      obtain ⟨k', v'⟩ := hd
      by_cases h : k' = k
      · simp [dinsert, dget, h]
      · simp [dinsert, dget, h, ih]

theorem dget_dinsert_ne {κ α : Type} [DecidableEq κ] (m : List (κ × α)) (k k' : κ) (v : α)
    (h : k' ≠ k) : dget (dinsert m k v) k' = dget m k' := by
  have h' : ¬ k = k' := fun hh => h hh.symm
  induction m with
  | nil => simp [dinsert, dget, h']
  | cons hd tl ih =>
      obtain ⟨k₀, v₀⟩ := hd
      by_cases h0 : k₀ = k
      · subst h0
        simp [dinsert, dget, h']
      · simp [dinsert, dget, h0, ih]

theorem dinsert_ne_nil {κ α : Type} [DecidableEq κ] (m : List (κ × α)) (k : κ) (v : α) :
    dinsert m k v ≠ [] := by
  cases m with
  | nil => simp [dinsert]
  | cons hd tl =>
      obtain ⟨k', v'⟩ := hd
      by_cases h : k' = k <;> simp [dinsert, h]

theorem dget_eq_none_of_not_mem_keys {κ α : Type} [DecidableEq κ]
    (m : List (κ × α)) (k : κ) (h : k ∉ dkeys m) : dget m k = none := by
  induction m with
  | nil => rfl
  | cons hd tl ih =>
      obtain ⟨k', v'⟩ := hd
      simp only [dkeys, List.map_cons, List.mem_cons] at h
      push_neg at h
      simp [dget, Ne.symm h.1, ih (by simpa [dkeys] using h.2)]

theorem dget_eq_some_iff_mem {κ α : Type} [DecidableEq κ]
    (m : List (κ × α)) (k : κ) (v : α) (hnd : (dkeys m).Nodup) :
    dget m k = some v ↔ (k, v) ∈ m := by
  induction m with
  | nil => simp [dget]
  | cons hd tl ih =>
      obtain ⟨k', v'⟩ := hd
      have hnd1 : k' ∉ dkeys tl ∧ (dkeys tl).Nodup := by
        simpa [dkeys] using hnd
      by_cases h : k' = k
      · subst h
        rw [show dget ((k', v') :: tl) k' = some v' from by simp [dget],
            Option.some_inj, List.mem_cons]
        constructor
        · intro hv; exact Or.inl (congrArg (Prod.mk k') hv.symm)
        · rintro (h1 | h1)
          · injection h1 with _ h1b
            exact h1b.symm
          · exact absurd (List.mem_map_of_mem Prod.fst h1)
              (by simpa [dkeys] using hnd1.1)
      · rw [show dget ((k', v') :: tl) k = dget tl k from by simp [dget, h],
            ih hnd1.2, List.mem_cons]
        constructor
        · exact Or.inr
        · rintro (h1 | h1)
          · simp only [Prod.mk.injEq] at h1
            exact absurd h1.1.symm h
          · exact h1

theorem dget_filter {κ α : Type} [DecidableEq κ]
    (m : List (κ × α)) (p : κ × α → Bool) (k : κ) (v : α) (hnd : (dkeys m).Nodup) :
    dget (m.filter p) k = some v ↔ dget m k = some v ∧ p (k, v) = true := by
  have hnd' : (dkeys (m.filter p)).Nodup := by
    have hs : (m.filter p).Sublist m := List.filter_sublist m
    exact List.Nodup.sublist (by simpa [dkeys] using hs.map Prod.fst) hnd
  rw [dget_eq_some_iff_mem _ _ _ hnd', dget_eq_some_iff_mem _ _ _ hnd, List.mem_filter]

/-! ### A model of Python runtime values at the JSON boundary

`json.dump` serialises `int`, `str`, `list` and `dict` (string keys), but
raises `TypeError` on a Python `set`.  `PyVal` captures exactly the runtime
shapes the two managers hand to `json.dump`; `json_encodable` mirrors which
of them `json.dump` accepts. -/

inductive PyVal : Type where
  | int : Int → PyVal
  | str : String → PyVal
  | list : List PyVal → PyVal
  | dict : List (String × PyVal) → PyVal
  | set : List Int → PyVal

mutual

/-- Whether `json.dump` can serialise the value (`False` exactly when a
Python `set` occurs somewhere inside it). -/
def json_encodable : PyVal → Bool
  | .int _ => true
  | .str _ => true
  | .set _ => false
  | .list xs => json_encodable_list xs
  | .dict kvs => json_encodable_entries kvs

/-- All elements of a list are serialisable. -/
def json_encodable_list : List PyVal → Bool
  | [] => true
  | x :: xs => json_encodable x && json_encodable_list xs

/-- All values of a dict are serialisable. -/
def json_encodable_entries : List (String × PyVal) → Bool
  | [] => true
  | (_, v) :: kvs => json_encodable v && json_encodable_entries kvs

end

/-! ### Application manager data model (`src/utils/application_manager.py`)

`self.applications` maps a message id to a session dict and
`self.user_applications` maps `str(user_id)` to the user's most recent
submission record.  Each dict value is given a structure type mirroring the
keys the source writes. -/

/-- One entry of a session's `applications` list (built in `add_application`). -/
structure Application where
  user_id : Int
  user_name : String
  requested_dates : List String
  additional_info : String
  applied_at : Int
deriving Repr, DecidableEq

/-- One value of `self.applications` (built in `create_application_session`,
 mutated by `add_application` and `close_application_session`). -/
structure Session where
  applications : List Application
  deadline : Int
  channel_id : Int
  created_at : Int
  status : String
  closed_at : Option Int
deriving Repr, DecidableEq

/-- One value of `self.user_applications` (written by `add_application`). -/
structure UserApp where
  message_id : String
  applied_date : Int
deriving Repr, DecidableEq

/-- The `ApplicationManager`'s mutable state: both in-memory maps plus the
JSON document last written to `self.data_file`. -/
structure ManagerState where
  applications : List (String × Session)
  user_applications : List (String × UserApp)
  disk : PyVal

/-- Seconds per day: `timedelta(days = d)` is modelled as `d * dayLength`. -/
def dayLength : Int := 86400

/-! ### Serialisation of the applications store (`_save_data`) -/

/-- JSON shape of one application record. -/
def application_doc (a : Application) : PyVal :=
  .dict [("user_id", .int a.user_id),
         ("user_name", .str a.user_name),
         ("requested_dates", .list (a.requested_dates.map PyVal.str)),
         ("additional_info", .str a.additional_info),
         ("applied_at", .int a.applied_at)]

/-- JSON shape of one session dict; `closed_at` is present only when
`close_application_session` has set it. -/
def session_doc (sess : Session) : PyVal :=
  .dict ([("applications", .list (sess.applications.map application_doc)),
          ("deadline", .int sess.deadline),
          ("channel_id", .int sess.channel_id),
          ("created_at", .int sess.created_at),
          ("status", .str sess.status)] ++
         (match sess.closed_at with
          | some t => [("closed_at", .int t)]
          | none => []))

/-- JSON shape of one `user_applications` value. -/
def user_app_doc (u : UserApp) : PyVal :=
  .dict [("message_id", .str u.message_id),
         ("applied_date", .int u.applied_date)]

/-- The document `_save_data` passes to `json.dump`:
`{'applications': ..., 'user_applications': ...}`. -/
def manager_doc (apps : List (String × Session)) (ua : List (String × UserApp)) : PyVal :=
  .dict [("applications", .dict (apps.map (fun p => (p.1, session_doc p.2)))),
         ("user_applications", .dict (ua.map (fun p => (p.1, user_app_doc p.2))))]

/-- `_save_data`: rewrite the data file with the current maps.  Every value
in the applications store is JSON-native (see `manager_doc_encodable`), so
the dump always succeeds and the disk document is replaced. -/
def save_data (s : ManagerState) : ManagerState :=
  { s with disk := manager_doc s.applications s.user_applications }

/-! ### Session registry operations -/

/-- Error string returned for an unknown session id. -/
def errUnknownSession : String := "유효하지 않은 신청 세션입니다."

/-- Error string returned when the deadline has passed. -/
def errDeadlinePassed : String := "신청 기간이 마감되었습니다."

/-- Error string returned for a duplicate submission. -/
def errDuplicateSubmission : String := "이미 신청하셨습니다."

/-- `create_application_session`: unconditionally (over)writes the session
entry for `message_id` with an empty application list, deadline
`now + deadline_days`, status `'active'`, and persists. -/
def create_application_session (s : ManagerState) (message_id : String)
    (channel_id : Int) (now : Int) (deadline_days : Int := 5) : ManagerState :=
  let deadline := now + deadline_days * dayLength
  let sess : Session :=
    { applications := [], deadline := deadline, channel_id := channel_id,
      created_at := now, status := "active", closed_at := none }
  save_data { s with applications := dinsert s.applications message_id sess }

/-- The dict returned by `add_application`. -/
structure AddResult where
  success : Bool
  error : Option String
  application : Option Application
  total_applications : Option Nat
deriving Repr, DecidableEq

/-- The duplicate-submission check of `add_application`: the user's
`user_applications` entry (if any) points at this very session. -/
def is_duplicate (ua : List (String × UserApp)) (user_key message_id : String) : Bool :=
  match dget ua user_key with
  | some existing => existing.message_id == message_id
  | none => false

/-- `add_application`: reject an unknown session, a passed deadline
(`now > deadline`), or a duplicate submission; otherwise append the
application, update the user index, persist, and report the new total. -/
def add_application (s : ManagerState) (message_id : String) (user_id : Int)
    (user_name : String) (requested_dates : List String) (additional_info : String)
    (now : Int) : AddResult × ManagerState :=
  match dget s.applications message_id with
  | none => (⟨false, some errUnknownSession, none, none⟩, s)
  | some sess =>
    if now > sess.deadline then
      (⟨false, some errDeadlinePassed, none, none⟩, s)
    else if is_duplicate s.user_applications (toString user_id) message_id then
      (⟨false, some errDuplicateSubmission, none, none⟩, s)
    else
      let app : Application :=
        { user_id := user_id, user_name := user_name,
          requested_dates := requested_dates,
          additional_info := additional_info, applied_at := now }
      let sess' := { sess with applications := sess.applications ++ [app] }
      let s' := save_data
        { s with applications := dinsert s.applications message_id sess',
                 user_applications := dinsert s.user_applications (toString user_id)
                   ⟨message_id, now⟩ }
      (⟨true, none, some app, some sess'.applications.length⟩, s')

/-! ### Summary computation (`get_applications_summary`) -/

/-- One step of the date tally: `date_counts[date] = date_counts.get(date, 0) + 1`. -/
def tally_step (acc : List (String × Nat)) (d : String) : List (String × Nat) :=
  dinsert acc d ((dget acc d).getD 0 + 1)

/-- The nested loop of `get_applications_summary` building `date_counts`:
over each application, over each of its requested dates. -/
def count_dates (apps : List Application) : List (String × Nat) :=
  apps.foldl (fun acc app => app.requested_dates.foldl tally_step acc) []

/-- The dict returned by `get_applications_summary` (without the error case). -/
structure Summary where
  total_applications : Nat
  unique_applicants : Nat
  date_counts : List (String × Nat)
  popular_dates : List String
  deadline : Int
  applications : List Application
deriving Repr, DecidableEq

/-- Summary of one session dict: counts, the date tally, and the dates with
more than one request, in `date_counts` (first-seen) order. -/
def summarize (sess : Session) : Summary :=
  let date_counts := count_dates sess.applications
  { total_applications := sess.applications.length,
    unique_applicants := (sess.applications.map (·.user_id)).dedup.length,
    date_counts := date_counts,
    popular_dates := (date_counts.filter (fun p => 1 < p.2)).map (·.1),
    deadline := sess.deadline,
    applications := sess.applications }

/-- `get_applications_summary`: error (`none`) on an unknown id, otherwise
the summary of the stored session. -/
def get_applications_summary (s : ManagerState) (message_id : String) : Option Summary :=
  (dget s.applications message_id).map summarize

/-- The dict returned by `close_application_session`. -/
structure CloseResult where
  success : Bool
  error : Option String
  summary : Option Summary
deriving Repr, DecidableEq

/-- `close_application_session`: error on an unknown id; otherwise flip the
status to `'closed'`, stamp `closed_at`, persist, and return the (re)computed
summary.  No check of the previous status is made. -/
def close_application_session (s : ManagerState) (message_id : String) (now : Int) :
    CloseResult × ManagerState :=
  match dget s.applications message_id with
  | none => (⟨false, some errUnknownSession, none⟩, s)
  | some sess =>
    let sess' := { sess with status := "closed", closed_at := some now }
    let s' := save_data { s with applications := dinsert s.applications message_id sess' }
    (⟨true, none, get_applications_summary s' message_id⟩, s')

/-- `cleanup_old_sessions`: drop sessions created before `now - days`,
drop user-index entries pointing at a dropped session, persist if anything
was dropped.  The Python function has no `return` statement, hence the
`Option Nat` result is always `none` (Python `None`). -/
def cleanup_old_sessions (s : ManagerState) (days : Int) (now : Int) :
    Option Nat × ManagerState :=
  let cutoff := now - days * dayLength
  let to_remove : List String :=
    (s.applications.filter (fun p => decide (p.2.created_at < cutoff))).map (·.1)
  let apps' := s.applications.filter (fun p => !decide (p.2.created_at < cutoff))
  let ua' := s.user_applications.filter (fun p => !decide (p.2.message_id ∈ to_remove))
  let s' := { s with applications := apps', user_applications := ua' }
  (none, if to_remove.isEmpty then s' else save_data s')

/-- One element of the list returned by `get_active_sessions`. -/
structure ActiveSessionInfo where
  message_id : String
  channel_id : Int
  created_at : Int
  deadline : Int
  summary : Option Summary
deriving Repr, DecidableEq

/-- The body of `get_active_sessions` as a function of the applications map
(the method reads nothing else of the state). -/
def active_sessions_of (apps : List (String × Session)) : List ActiveSessionInfo :=
  (apps.filter (fun p => p.2.status == "active")).map
    (fun p => ⟨p.1, p.2.channel_id, p.2.created_at, p.2.deadline,
               (dget apps p.1).map summarize⟩)

/-- `get_active_sessions`: the sessions whose status is `'active'`, each with
its metadata and freshly computed summary. -/
def get_active_sessions (s : ManagerState) : List ActiveSessionInfo :=
  active_sessions_of s.applications

/-! ### Reloading the applications store (`_load_data`)

After `json.load`, the Python code uses the parsed document directly as its
maps.  The decoders below are the typed reading of that document; they accept
exactly the shapes `manager_doc` writes. -/

/-- Read an int field. -/
def as_int : PyVal → Option Int
  | .int n => some n
  | _ => none

/-- Read a string field. -/
def as_str : PyVal → Option String
  | .str s => some s
  | _ => none

/-- Decode every element of a JSON list. -/
def decode_list {α : Type} (f : PyVal → Option α) : List PyVal → Option (List α)
  | [] => some []
  | v :: vs =>
    match f v, decode_list f vs with
    | some a, some rest => some (a :: rest)
    | _, _ => none

/-- Decode every value of a JSON dict, keeping the keys. -/
def decode_entries {α : Type} (f : PyVal → Option α) :
    List (String × PyVal) → Option (List (String × α))
  | [] => some []
  | (k, v) :: kvs =>
    match f v, decode_entries f kvs with
    | some a, some rest => some ((k, a) :: rest)
    | _, _ => none

/-- Read one application record back from its JSON dict. -/
def decode_application (v : PyVal) : Option Application :=
  match v with
  | .dict kvs =>
    match dget kvs "user_id", dget kvs "user_name", dget kvs "requested_dates",
          dget kvs "additional_info", dget kvs "applied_at" with
    | some (.int uid), some (.str un), some (.list ds), some (.str ai), some (.int t) =>
      match decode_list as_str ds with
      | some dates => some ⟨uid, un, dates, ai, t⟩
      | none => none
    | _, _, _, _, _ => none
  | _ => none

/-- Read the optional `closed_at` key. -/
def decode_closed_at : Option PyVal → Option (Option Int)
  | none => some none
  | some (.int t) => some (some t)
  | some _ => none

/-- Read one session dict back from its JSON form. -/
def decode_session (v : PyVal) : Option Session :=
  match v with
  | .dict kvs =>
    match dget kvs "applications", dget kvs "deadline", dget kvs "channel_id",
          dget kvs "created_at", dget kvs "status" with
    | some (.list avs), some (.int dl), some (.int ch), some (.int cr), some (.str st) =>
      match decode_list decode_application avs, decode_closed_at (dget kvs "closed_at") with
      | some apps, some cl => some ⟨apps, dl, ch, cr, st, cl⟩
      | _, _ => none
    | _, _, _, _, _ => none
  | _ => none

/-- Read the whole `applications` map back. -/
def decode_sessions (v : PyVal) : Option (List (String × Session)) :=
  match v with
  | .dict kvs => decode_entries decode_session kvs
  | _ => none

/-- Read one `user_applications` value back. -/
def decode_user_app (v : PyVal) : Option UserApp :=
  match v with
  | .dict kvs =>
    match dget kvs "message_id", dget kvs "applied_date" with
    | some (.str mid), some (.int t) => some ⟨mid, t⟩
    | _, _ => none
  | _ => none

/-- Read the whole `user_applications` map back. -/
def decode_user_apps (v : PyVal) : Option (List (String × UserApp)) :=
  match v with
  | .dict kvs => decode_entries decode_user_app kvs
  | _ => none

/-- `_load_data` on a present file: `data.get('applications', {})` and
`data.get('user_applications', {})`, then the document is the in-memory
state (missing keys default to empty maps). -/
def load_state (v : PyVal) : Option ManagerState :=
  match v with
  | .dict kvs =>
    match decode_sessions ((dget kvs "applications").getD (.dict [])),
          decode_user_apps ((dget kvs "user_applications").getD (.dict [])) with
    | some apps, some ua => some ⟨apps, ua, v⟩
    | _, _ => none
  | _ => none

/-! Round-trip lemmas: every shape `_save_data` writes is read back
unchanged. -/

theorem decode_list_map_str (l : List String) :
    decode_list as_str (l.map PyVal.str) = some l := by
  induction l with
  | nil => rfl
  | cons x xs ih => simp [decode_list, as_str, ih]

theorem decode_application_doc (a : Application) :
    decode_application (application_doc a) = some a := by
  simp [application_doc, decode_application, dget, decode_list_map_str]

theorem decode_list_map_application (l : List Application) :
    decode_list decode_application (l.map application_doc) = some l := by
  induction l with
  | nil => rfl
  | cons x xs ih => simp [decode_list, decode_application_doc, ih]

theorem decode_session_doc (sess : Session) :
    decode_session (session_doc sess) = some sess := by
  obtain ⟨apps, dl, ch, cr, st, cl⟩ := sess
  cases cl with
  | none =>
      simp [session_doc, decode_session, dget, decode_closed_at,
            decode_list_map_application]
  | some t =>
      simp [session_doc, decode_session, dget, decode_closed_at,
            decode_list_map_application]

theorem decode_sessions_map (apps : List (String × Session)) :
    decode_sessions (.dict (apps.map (fun p => (p.1, session_doc p.2)))) = some apps := by
  induction apps with
  | nil => rfl
  | cons p ps ih =>
      obtain ⟨k, sess⟩ := p
      simp only [decode_sessions, List.map_cons, decode_entries, decode_session_doc]
      simp only [decode_sessions] at ih
      simp [ih]

theorem decode_user_app_doc (u : UserApp) :
    decode_user_app (user_app_doc u) = some u := by
  simp [user_app_doc, decode_user_app, dget]

theorem decode_user_apps_map (ua : List (String × UserApp)) :
    decode_user_apps (.dict (ua.map (fun p => (p.1, user_app_doc p.2)))) = some ua := by
  induction ua with
  | nil => rfl
  | cons p ps ih =>
      obtain ⟨k, u⟩ := p
      simp only [decode_user_apps, List.map_cons, decode_entries, decode_user_app_doc]
      simp only [decode_user_apps] at ih
      simp [ih]

theorem load_manager_doc (apps : List (String × Session)) (ua : List (String × UserApp)) :
    load_state (manager_doc apps ua) = some ⟨apps, ua, manager_doc apps ua⟩ := by
  simp [load_state, manager_doc, dget, decode_sessions_map, decode_user_apps_map]

/-! Everything `_save_data` writes is JSON-serialisable (no `set` occurs in
the applications store, in contrast with the analytics store). -/

theorem json_encodable_list_map_str (l : List String) :
    json_encodable_list (l.map PyVal.str) = true := by
  induction l with
  | nil => rfl
  | cons x xs ih => simp [json_encodable_list, json_encodable, ih]

theorem application_doc_encodable (a : Application) :
    json_encodable (application_doc a) = true := by
  simp [application_doc, json_encodable, json_encodable_entries, json_encodable_list,
        json_encodable_list_map_str]

theorem json_encodable_list_map_application (l : List Application) :
    json_encodable_list (l.map application_doc) = true := by
  induction l with
  | nil => rfl
  | cons x xs ih => simp [json_encodable_list, application_doc_encodable, ih]

theorem session_doc_encodable (sess : Session) :
    json_encodable (session_doc sess) = true := by
  cases h : sess.closed_at with
  | none =>
      simp [session_doc, h, json_encodable, json_encodable_entries,
            json_encodable_list_map_application]
  | some t =>
      simp [session_doc, h, json_encodable, json_encodable_entries,
            json_encodable_list_map_application]

theorem sessions_map_encodable (apps : List (String × Session)) :
    json_encodable_entries (apps.map (fun p => (p.1, session_doc p.2))) = true := by
  induction apps with
  | nil => rfl
  | cons p ps ih => simp [json_encodable_entries, session_doc_encodable, ih]

theorem user_app_doc_encodable (u : UserApp) :
    json_encodable (user_app_doc u) = true := by
  simp [user_app_doc, json_encodable, json_encodable_entries]

theorem user_apps_map_encodable (ua : List (String × UserApp)) :
    json_encodable_entries (ua.map (fun p => (p.1, user_app_doc p.2))) = true := by
  induction ua with
  | nil => rfl
  | cons p ps ih =>
      simp [json_encodable_entries, user_app_doc_encodable, ih]

theorem manager_doc_encodable (apps : List (String × Session)) (ua : List (String × UserApp)) :
    json_encodable (manager_doc apps ua) = true := by
  simp [manager_doc, json_encodable, json_encodable_entries,
        sessions_map_encodable, user_apps_map_encodable]

/-! ### Characterising the date tally

`count_dates` is the source's imperative loop; the lemmas below identify it
with the declarative description used by the spec: each first-seen date in
order, paired with its multiset count over all requested dates. -/

/-- The date tally over one flat list of date strings. -/
def tally (l : List String) : List (String × Nat) := l.foldl tally_step []

/-- The distinct elements of `l`, each at its first occurrence, in order. -/
def first_occurrences {α : Type} [DecidableEq α] (l : List α) : List α :=
  l.foldl (fun ks d => if d ∈ ks then ks else ks ++ [d]) []

theorem count_dates_eq_tally_aux (apps : List Application) (acc : List (String × Nat)) :
    apps.foldl (fun acc app => app.requested_dates.foldl tally_step acc) acc =
      ((apps.map (·.requested_dates)).flatten).foldl tally_step acc := by
  induction apps generalizing acc with
  | nil => rfl
  | cons hd tl ih =>
      simp only [List.foldl_cons, List.map_cons, List.flatten_cons, List.foldl_append]
      exact ih _

theorem count_dates_eq_tally (apps : List Application) :
    count_dates apps = tally ((apps.map (·.requested_dates)).flatten) :=
  count_dates_eq_tally_aux apps []

theorem tally_append_singleton (l : List String) (d : String) :
    tally (l ++ [d]) = tally_step (tally l) d := by
  simp [tally, List.foldl_append]

theorem first_occurrences_append_singleton {α : Type} [DecidableEq α] (l : List α) (d : α) :
    first_occurrences (l ++ [d]) =
      if d ∈ first_occurrences l then first_occurrences l
      else first_occurrences l ++ [d] := by
  simp [first_occurrences, List.foldl_append]

theorem mem_first_occurrences {α : Type} [DecidableEq α] (l : List α) (x : α) :
    x ∈ first_occurrences l ↔ x ∈ l := by
  induction l using List.reverseRecOn with
  | nil => simp [first_occurrences]
  | append_singleton l d ih =>
      rw [first_occurrences_append_singleton]
      by_cases h : d ∈ first_occurrences l
      · simp only [if_pos h, List.mem_append, List.mem_singleton, ih]
        constructor
        · exact Or.inl
        · rintro (h1 | h1)
          · exact h1
          · subst h1; exact ih.mp h
      · simp [if_neg h, ih]

theorem first_occurrences_nodup {α : Type} [DecidableEq α] (l : List α) :
    (first_occurrences l).Nodup := by
  induction l using List.reverseRecOn with
  | nil => simp [first_occurrences]
  | append_singleton l d ih =>
      rw [first_occurrences_append_singleton]
      by_cases h : d ∈ first_occurrences l
      · simpa [h] using ih
      · simp [h, List.nodup_append, ih, List.disjoint_singleton]

theorem dget_map_graph {α β : Type} [DecidableEq α] (ks : List α) (c : α → β) (d : α) :
    dget (ks.map (fun x => (x, c x))) d = if d ∈ ks then some (c d) else none := by
  induction ks with
  | nil => simp [dget]
  | cons k ks ih =>
      by_cases h : k = d
      · subst h; simp [dget]
      · simp [dget, h, ih, Ne.symm h]

theorem dinsert_map_graph_mem {α β : Type} [DecidableEq α] (ks : List α) (c : α → β)
    (d : α) (v : β) (hnd : ks.Nodup) (hd : d ∈ ks) :
    dinsert (ks.map (fun x => (x, c x))) d v =
      ks.map (fun x => (x, if x = d then v else c x)) := by
  induction ks with
  | nil => cases hd
  | cons k ks ih =>
      rcases List.nodup_cons.mp hnd with ⟨hk, hnd'⟩
      by_cases h : k = d
      · subst h
        have hcong : List.map (fun x => ((x, if x = k then v else c x) : α × β)) ks
            = List.map (fun x => (x, c x)) ks := by
          apply List.map_congr_left
          intro x hx
          have hxk : ¬ x = k := fun hh => hk (hh ▸ hx)
          simp [hxk]
        simp only [List.map_cons, dinsert, if_pos rfl]
        simp [hcong]
      · have hd' : d ∈ ks := by
          rcases List.mem_cons.mp hd with h1 | h1
          · exact absurd h1.symm h
          · exact h1
        simp only [List.map_cons, dinsert, if_neg h, ih hnd' hd', if_neg (Ne.symm h)]

theorem dinsert_map_graph_not_mem {α β : Type} [DecidableEq α] (ks : List α) (c : α → β)
    (d : α) (v : β) (hd : d ∉ ks) :
    dinsert (ks.map (fun x => (x, c x))) d v = ks.map (fun x => (x, c x)) ++ [(d, v)] := by
  induction ks with
  | nil => simp [dinsert]
  | cons k ks ih =>
      have h1 : k ≠ d := fun hh => hd (hh ▸ List.mem_cons_self k ks)
      have h2 : d ∉ ks := fun hh => hd (List.mem_cons_of_mem _ hh)
      simp [dinsert, h1, ih h2]

theorem tally_eq (l : List String) :
    tally l = (first_occurrences l).map (fun d => (d, l.count d)) := by
  induction l using List.reverseRecOn with
  | nil => rfl
  | append_singleton l d ih =>
      rw [tally_append_singleton, ih, first_occurrences_append_singleton]
      unfold tally_step
      rw [dget_map_graph]
      by_cases h : d ∈ first_occurrences l
      · rw [if_pos h, if_pos h, Option.getD_some,
            dinsert_map_graph_mem _ _ _ _ (first_occurrences_nodup l) h]
        apply List.map_congr_left
        intro x hx
        by_cases hxd : x = d
        · subst hxd; simp
        · simp [hxd, List.count_append]
      · have hdl : d ∉ l := fun hh => h ((mem_first_occurrences l d).mpr hh)
        rw [if_neg h, if_neg h, Option.getD_none,
            dinsert_map_graph_not_mem _ _ _ _ h]
        rw [List.map_append]
        congr 1
        · apply List.map_congr_left
          intro x hx
          have hxd : x ≠ d := fun hh => h (hh ▸ hx)
          simp [List.count_append, hxd]
        · simp [List.count_append, List.count_eq_zero_of_not_mem hdl]

/-- Lookup in the tally gives the multiset count. -/
theorem dget_tally (l : List String) (d : String) :
    (dget (tally l) d).getD 0 = l.count d := by
  rw [tally_eq, dget_map_graph]
  by_cases h : d ∈ first_occurrences l
  · simp [h]
  · have : d ∉ l := fun hh => h ((mem_first_occurrences l d).mpr hh)
    simp [h, List.count_eq_zero_of_not_mem this]

/-- The tally's keys are the dates in first-seen order. -/
theorem dkeys_tally (l : List String) :
    dkeys (tally l) = first_occurrences l := by
  rw [tally_eq]
  simp [dkeys, Function.comp_def]

/-! ### Analytics (`src/utils/analytics.py`)

Calendar key computations (`strftime("%Y-%m")`, `"%Y-W%W"`, `"%H"`, `"%A"`)
are abstracted as pre-projected integer keys carried by a `Clock` value;
`str(...)` keys are modelled by the underlying integers (`str` is injective
on them).  The set-valued counters (`set()` / `.add(...)`) are modelled as
duplicate-free element lists built by `sinsert`, and are marked as `PyVal.set`
when the state is handed to `json.dump`. -/

/-- The flattened application event passed to `record_application`. -/
structure AppEvent where
  user_id : Int
  user_name : String
  requested_dates : List String
  applied_at : Int
  applied_month : Int
  channel_id : Option Int
deriving Repr, DecidableEq

/-- The calendar projections of `datetime.now(...)` used by
`record_application`: current month, ISO-ish week, hour and weekday keys. -/
structure Clock where
  month : Int
  week : Int
  hour : Int
  weekday : Int
deriving Repr, DecidableEq

/-- Python `set.add`: insert if absent. -/
def sinsert (l : List Int) (x : Int) : List Int :=
  if x ∈ l then l else l ++ [x]

/-- Python `Counter[k] += 1`. -/
def cinc {κ : Type} [DecidableEq κ] (c : List (κ × Nat)) (k : κ) : List (κ × Nat) :=
  dinsert c k ((dget c k).getD 0 + 1)

/-- One `monthly_stats` bucket. -/
structure MonthStats where
  total_applications : Nat
  unique_users : List Int
  popular_dates : List (String × Nat)
  application_times : List Int
  channels : List (Int × Nat)
deriving Repr, DecidableEq

/-- One `user_participation` record. -/
structure UserPart where
  total_applications : Nat
  first_application : Int
  last_application : Int
  preferred_dates : List (String × Nat)
  application_months : List Int
deriving Repr, DecidableEq

/-- One `channel_performance` record. -/
structure ChanPerf where
  total_applications : Nat
  unique_users : List Int
  average_participation : Nat
  last_activity : Int
deriving Repr, DecidableEq

/-- One `trends` week bucket. -/
structure TrendEntry where
  applications : Nat
  unique_users : List Int
  growth_rate : Int
deriving Repr, DecidableEq

/-- The `Analytics` object's state: `analytics_data` (with `popular_times`
flattened into its two lazily created counters, which the source always
creates together) plus the JSON document last successfully written to
`self.data_file` (`none` while no write has succeeded). -/
structure AnalyticsState where
  monthly_stats : List (Int × MonthStats)
  user_participation : List (Int × UserPart)
  popular_hourly : List (Int × Nat)
  popular_daily : List (Int × Nat)
  channel_performance : List (Int × ChanPerf)
  trends : List (Int × TrendEntry)
  disk : Option PyVal

/-- `_update_monthly_stats`. -/
def update_monthly_stats (ms : List (Int × MonthStats)) (month_key : Int)
    (ev : AppEvent) : List (Int × MonthStats) :=
  let stats := (dget ms month_key).getD ⟨0, [], [], [], []⟩
  let stats' : MonthStats :=
    { total_applications := stats.total_applications + 1,
      unique_users := sinsert stats.unique_users ev.user_id,
      popular_dates := ev.requested_dates.foldl (fun c d => cinc c d) stats.popular_dates,
      application_times := stats.application_times ++ [ev.applied_at],
      channels := match ev.channel_id with
                  | some ch => cinc stats.channels ch
                  | none => stats.channels }
  dinsert ms month_key stats'

/-- `_update_user_participation`. -/
def update_user_participation (up : List (Int × UserPart)) (ev : AppEvent) :
    List (Int × UserPart) :=
  let ud := (dget up ev.user_id).getD ⟨0, ev.applied_at, ev.applied_at, [], []⟩
  let ud' : UserPart :=
    { total_applications := ud.total_applications + 1,
      first_application := ud.first_application,
      last_application := ev.applied_at,
      preferred_dates := ev.requested_dates.foldl (fun c d => cinc c d) ud.preferred_dates,
      application_months := sinsert ud.application_months ev.applied_month }
  dinsert up ev.user_id ud'

/-- `_update_channel_performance` (no-op when the event has no channel id). -/
def update_channel_performance (cp : List (Int × ChanPerf)) (ev : AppEvent) :
    List (Int × ChanPerf) :=
  match ev.channel_id with
  | none => cp
  | some ch =>
    let cd := (dget cp ch).getD ⟨0, [], 0, ev.applied_at⟩
    let unique' := sinsert cd.unique_users ev.user_id
    let cd' : ChanPerf :=
      { total_applications := cd.total_applications + 1,
        unique_users := unique',
        average_participation := unique'.length,
        last_activity := ev.applied_at }
    dinsert cp ch cd'

/-- `_update_trends`. -/
def update_trends (tr : List (Int × TrendEntry)) (week_key : Int) (ev : AppEvent) :
    List (Int × TrendEntry) :=
  let td := (dget tr week_key).getD ⟨0, [], 0⟩
  let td' : TrendEntry :=
    { applications := td.applications + 1,
      unique_users := sinsert td.unique_users ev.user_id,
      growth_rate := td.growth_rate }
  dinsert tr week_key td'

/-! Serialisation of `analytics_data`: the shapes actually held in memory.
The `unique_users` / `application_months` values are Python `set`s, which
`json.dump` rejects. -/

/-- JSON-boundary shape of a `monthly_stats` bucket. -/
def month_doc (b : MonthStats) : PyVal :=
  .dict [("total_applications", .int b.total_applications),
         ("unique_users", .set b.unique_users),
         ("popular_dates", .dict (b.popular_dates.map (fun p => (p.1, PyVal.int p.2)))),
         ("application_times", .list (b.application_times.map PyVal.int)),
         ("channels", .dict (b.channels.map (fun p => (toString p.1, PyVal.int p.2))))]

/-- JSON-boundary shape of a `user_participation` record. -/
def user_part_doc (u : UserPart) : PyVal :=
  .dict [("total_applications", .int u.total_applications),
         ("first_application", .int u.first_application),
         ("last_application", .int u.last_application),
         ("preferred_dates", .dict (u.preferred_dates.map (fun p => (p.1, PyVal.int p.2)))),
         ("application_months", .set u.application_months)]

/-- JSON-boundary shape of a `channel_performance` record. -/
def chan_doc (c : ChanPerf) : PyVal :=
  .dict [("total_applications", .int c.total_applications),
         ("unique_users", .set c.unique_users),
         ("average_participation", .int c.average_participation),
         ("last_activity", .int c.last_activity)]

/-- JSON-boundary shape of a `trends` bucket. -/
def trend_doc (t : TrendEntry) : PyVal :=
  .dict [("applications", .int t.applications),
         ("unique_users", .set t.unique_users),
         ("growth_rate", .int t.growth_rate)]

/-- The document `Analytics._save_data` hands to `json.dump`. -/
def analytics_doc (a : AnalyticsState) : PyVal :=
  .dict [("monthly_stats",
            .dict (a.monthly_stats.map (fun p => (toString p.1, month_doc p.2)))),
         ("user_participation",
            .dict (a.user_participation.map (fun p => (toString p.1, user_part_doc p.2)))),
         ("popular_times",
            .dict [("hourly", .dict (a.popular_hourly.map (fun p => (toString p.1, PyVal.int p.2)))),
                   ("daily", .dict (a.popular_daily.map (fun p => (toString p.1, PyVal.int p.2))))]),
         ("channel_performance",
            .dict (a.channel_performance.map (fun p => (toString p.1, chan_doc p.2)))),
         ("trends",
            .dict (a.trends.map (fun p => (toString p.1, trend_doc p.2))))]

/-- `Analytics._save_data`: `json.dump` succeeds only on serialisable data;
a `TypeError` is caught and logged, leaving the previous file content (the
source may in fact leave a truncated file behind, which the model folds into
"the updated document never reaches disk"). -/
def analytics_save (a : AnalyticsState) : AnalyticsState :=
  if json_encodable (analytics_doc a) then { a with disk := some (analytics_doc a) } else a

/-- `record_application`: run the five counter updates, then attempt to
persist. -/
def record_application (a : AnalyticsState) (ev : AppEvent) (clk : Clock) :
    AnalyticsState :=
  analytics_save
    { a with
      monthly_stats := update_monthly_stats a.monthly_stats clk.month ev,
      user_participation := update_user_participation a.user_participation ev,
      popular_hourly := cinc a.popular_hourly clk.hour,
      popular_daily := cinc a.popular_daily clk.weekday,
      channel_performance := update_channel_performance a.channel_performance ev,
      trends := update_trends a.trends clk.week ev }

/-! ### Trend analysis (`get_trend_analysis`) -/

/-- Error string returned when no week bucket in the window is populated. -/
def errNoTrendData : String := "트렌드 데이터가 없습니다."

/-- One row of `recent_trends`: the populated buckets of the last `weeks`
weeks, most recent first. -/
structure TrendRow where
  week : Int
  applications : Nat
  unique_users : Nat
deriving Repr, DecidableEq

/-- The dict returned by `get_trend_analysis`; on the empty-window error the
source returns only the error key, hence the `Option` result fields.
`growth_rate` is computed exactly over `ℚ` here; the source additionally
rounds the float to two decimal places when reporting. -/
structure TrendReport where
  error : Option String
  recent_trends : List TrendRow
  growth_rate : Option ℚ
  average_applications_per_week : Option ℚ
deriving Repr, DecidableEq

/-- The loop of `get_trend_analysis`: scan the last `weeks` week keys, most
recent first, keeping the populated ones. -/
def trend_rows (tr : List (Int × TrendEntry)) (now_week : Int) (weeks : Nat) :
    List TrendRow :=
  (List.range weeks).filterMap (fun i =>
    match dget tr (now_week - (i : Int)) with
    | some td => some ⟨now_week - (i : Int), td.applications, td.unique_users.length⟩
    | none => none)

/-- `get_trend_analysis`. -/
def get_trend_analysis (a : AnalyticsState) (now_week : Int) (weeks : Nat := 8) :
    TrendReport :=
  let trends := trend_rows a.trends now_week weeks
  if trends.isEmpty then
    ⟨some errNoTrendData, [], none, none⟩
  else
    let growth_rate : ℚ :=
      match trends with
      | t0 :: t1 :: _ =>
          if 0 < t1.applications then
            (((t0.applications : ℚ) - (t1.applications : ℚ)) / (t1.applications : ℚ)) * 100
          else 0
      | _ => 0
    ⟨none, trends, some growth_rate,
     some (((trends.map (·.applications)).sum : ℚ) / (trends.length : ℚ))⟩

theorem filter_map_graph_count {α : Type} (ks : List α) (c : α → Nat) :
    ((ks.map (fun x => (x, c x))).filter (fun q => decide (1 < q.2))).map (·.1)
      = ks.filter (fun x => decide (1 < c x)) := by
  induction ks with
  | nil => rfl
  | cons k ks ih => by_cases h : 1 < c k <;> simp [h, ih]

/-! ### Demonstration states (the spec's concrete scenario) -/

/-- A fresh manager: no data file, so `_load_data` writes the empty store. -/
def demo_state0 : ManagerState := ⟨[], [], manager_doc [] []⟩

/-- `create session "m1"` in channel 10 at time 0 with a 5-day deadline. -/
def demo_state1 : ManagerState := create_application_session demo_state0 "m1" 10 0 5

/-- User A (id 1) applies for `2024-07-10`. -/
def demo_state2 : ManagerState :=
  (add_application demo_state1 "m1" 1 "A" ["2024-07-10"] "" 100).2

/-- User B (id 2) applies for `2024-07-10` and `2024-07-12`. -/
def demo_state3 : ManagerState :=
  (add_application demo_state2 "m1" 2 "B" ["2024-07-10", "2024-07-12"] "" 200).2

/-- The session record held under `"m1"` after the two submissions. -/
def demo_session : Session :=
  { applications :=
      [⟨1, "A", ["2024-07-10"], "", 100⟩,
       ⟨2, "B", ["2024-07-10", "2024-07-12"], "", 200⟩],
    deadline := 432000, channel_id := 10, created_at := 0,
    status := "active", closed_at := none }

/-- C3 (confirmed).  `get_applications_summary` is a pure function of the
stored session: `total_applications` is the list length, `unique_applicants`
the cardinality of the set of user ids, `date_counts` the multiset count of
each requested date string over all applications (the tally's keys appear in
first-seen order), and `popular_dates` is exactly the date strings counted
more than once, in first-seen order. -/
theorem get_applications_summary_spec (s : ManagerState) (mid : String) (sess : Session)
    (h : dget s.applications mid = some sess) :
    ∃ sm, get_applications_summary s mid = some sm ∧
      sm.total_applications = sess.applications.length ∧
      sm.unique_applicants = ((sess.applications.map (·.user_id)).toFinset).card ∧
      (∀ d : String, (dget sm.date_counts d).getD 0
          = ((sess.applications.map (·.requested_dates)).flatten).count d) ∧
      dkeys sm.date_counts
          = first_occurrences ((sess.applications.map (·.requested_dates)).flatten) ∧
      sm.popular_dates
          = (first_occurrences ((sess.applications.map (·.requested_dates)).flatten)).filter
              (fun d => decide (1 < ((sess.applications.map (·.requested_dates)).flatten).count d)) ∧
      sm.applications = sess.applications := by
  refine ⟨summarize sess, by simp [get_applications_summary, h], rfl, ?_, ?_, ?_, ?_, rfl⟩
  · simp [summarize, List.card_toFinset]
  · intro d
    simp only [summarize]
    rw [count_dates_eq_tally, dget_tally]
  · simp only [summarize]
    rw [count_dates_eq_tally, dkeys_tally]
  · simp only [summarize]
    rw [count_dates_eq_tally, tally_eq]
    exact filter_map_graph_count _ _

/-- Witness for C3: the spec's scenario (users A and B, dates as above)
instantiates the theorem, and the summary has total=2, unique=2,
date_counts={2024-07-10: 2, 2024-07-12: 1}, popular_dates=[2024-07-10]. -/
theorem get_applications_summary_spec_witness :
    dget demo_state3.applications "m1" = some demo_session ∧
    get_applications_summary demo_state3 "m1" =
      some ⟨2, 2, [("2024-07-10", 2), ("2024-07-12", 1)], ["2024-07-10"],
            432000, demo_session.applications⟩ ∧
    (∃ sm, get_applications_summary demo_state3 "m1" = some sm ∧
      sm.total_applications = demo_session.applications.length ∧
      sm.unique_applicants = ((demo_session.applications.map (·.user_id)).toFinset).card ∧
      (∀ d : String, (dget sm.date_counts d).getD 0
          = ((demo_session.applications.map (·.requested_dates)).flatten).count d) ∧
      dkeys sm.date_counts
          = first_occurrences ((demo_session.applications.map (·.requested_dates)).flatten) ∧
      sm.popular_dates
          = (first_occurrences ((demo_session.applications.map (·.requested_dates)).flatten)).filter
              (fun d => decide (1 < ((demo_session.applications.map (·.requested_dates)).flatten).count d)) ∧
      sm.applications = demo_session.applications) :=
  ⟨by decide, by decide,
   get_applications_summary_spec demo_state3 "m1" demo_session (by decide)⟩

/-- C4 (confirmed).  `add_application` on an unknown session id returns the
unknown-session error, and on a known session whose deadline lies strictly
before the call time returns the deadline-passed error; in both cases the
returned state is the argument state itself — neither map nor the on-disk
document is touched. -/
theorem add_application_failure_atomic (s : ManagerState) (mid : String) (uid : Int)
    (un : String) (dates : List String) (info : String) (now : Int) :
    (dget s.applications mid = none →
      add_application s mid uid un dates info now
        = (⟨false, some errUnknownSession, none, none⟩, s)) ∧
    (∀ sess, dget s.applications mid = some sess → sess.deadline < now →
      add_application s mid uid un dates info now
        = (⟨false, some errDeadlinePassed, none, none⟩, s)) := by
  constructor
  · intro h
    simp [add_application, h]
  · intro sess h hd
    simp [add_application, h, hd]

/-- Witness for C4: the spec's scenario — an `add_application` against the
unknown id `"missing"` returns the unknown-session error, and a submission
after the deadline returns the deadline-passed error; the state (disk
included) is returned unchanged. -/
theorem add_application_failure_atomic_witness :
    add_application demo_state3 "missing" 3 "C" ["2024-07-13"] "" 300
      = (⟨false, some errUnknownSession, none, none⟩, demo_state3) ∧
    add_application demo_state3 "m1" 3 "C" ["2024-07-13"] "" 1000000
      = (⟨false, some errDeadlinePassed, none, none⟩, demo_state3) :=
  ⟨(add_application_failure_atomic demo_state3 "missing" 3 "C" ["2024-07-13"] "" 300).1
      (by decide),
   (add_application_failure_atomic demo_state3 "m1" 3 "C" ["2024-07-13"] "" 1000000).2
      demo_session (by decide) (by decide)⟩

theorem close_application_session_eq (s : ManagerState) (mid : String) (sess : Session)
    (h : dget s.applications mid = some sess) (t : Int) :
    close_application_session s mid t
      = (⟨true, none, some (summarize { sess with status := "closed", closed_at := some t })⟩,
         save_data { s with applications :=
           (dinsert s.applications mid { sess with status := "closed", closed_at := some t }) }) := by
  simp [close_application_session, h, get_applications_summary, save_data, dget_dinsert_self]

/-- C5 (confirmed).  Closing an existing session twice succeeds both times
(no error on double-close), returns the same summary both times, and leaves
the session's application list as it was. -/
theorem close_application_session_idempotent (s : ManagerState) (mid : String)
    (sess : Session) (h : dget s.applications mid = some sess) (t₁ t₂ : Int) :
    (close_application_session s mid t₁).1.success = true ∧
    (close_application_session s mid t₁).1.error = none ∧
    (close_application_session (close_application_session s mid t₁).2 mid t₂).1.success = true ∧
    (close_application_session (close_application_session s mid t₁).2 mid t₂).1.error = none ∧
    (close_application_session (close_application_session s mid t₁).2 mid t₂).1.summary
      = (close_application_session s mid t₁).1.summary ∧
    (dget (close_application_session (close_application_session s mid t₁).2 mid t₂).2.applications
        mid).map (·.applications) = some sess.applications := by
  have e1 := close_application_session_eq s mid sess h t₁
  have h1 : dget (close_application_session s mid t₁).2.applications mid
      = some { sess with status := "closed", closed_at := some t₁ } := by
    rw [e1]
    exact dget_dinsert_self _ _ _
  have e2 := close_application_session_eq _ mid _ h1 t₂
  refine ⟨by rw [e1], by rw [e1], by rw [e2], by rw [e2], ?_, ?_⟩
  · rw [e2, e1]
    rfl
  · rw [e2]
    simp [save_data, dget_dinsert_self]

/-- Witness for C5: double-closing the scenario session `"m1"` at two
different times yields the same summary and the untouched two-element
application list. -/
theorem close_application_session_idempotent_witness :
    (close_application_session demo_state3 "m1" 500000).1.success = true ∧
    (close_application_session demo_state3 "m1" 500000).1.error = none ∧
    (close_application_session
        (close_application_session demo_state3 "m1" 500000).2 "m1" 600000).1.success = true ∧
    (close_application_session
        (close_application_session demo_state3 "m1" 500000).2 "m1" 600000).1.error = none ∧
    (close_application_session
        (close_application_session demo_state3 "m1" 500000).2 "m1" 600000).1.summary
      = (close_application_session demo_state3 "m1" 500000).1.summary ∧
    (dget (close_application_session
        (close_application_session demo_state3 "m1" 500000).2 "m1" 600000).2.applications
        "m1").map (·.applications) = some demo_session.applications :=
  close_application_session_idempotent demo_state3 "m1" demo_session (by decide) 500000 600000

/-- C9 (confirmed).  Persisting the applications store always succeeds
(everything in it is JSON-native), and reloading the saved document yields a
registry whose `get_active_sessions` output is identical to the original's. -/
theorem save_load_round_trip (s : ManagerState) :
    json_encodable (save_data s).disk = true ∧
    ∃ s', load_state (save_data s).disk = some s' ∧
      get_active_sessions s' = get_active_sessions s := by
  refine ⟨manager_doc_encodable _ _,
          ⟨s.applications, s.user_applications, manager_doc s.applications s.user_applications⟩,
          ?_, rfl⟩
  exact load_manager_doc _ _

/-! ### Closed sessions and the duplicate rule (C1, C2, C10) -/

/-- The state after closing the freshly created (still empty) session `"m1"`
at time 10, well before its deadline 432000. -/
def c1_closed_state : ManagerState := (close_application_session demo_state1 "m1" 10).2

/-- The session record stored under `"m1"` in `c1_closed_state`. -/
def c1_closed_session : Session :=
  { applications := [], deadline := 432000, channel_id := 10, created_at := 0,
    status := "closed", closed_at := some 10 }

/-- C1 counterexample: `add_application` makes no status check, so a session
whose status is `'closed'` but whose deadline has not passed still accepts a
submission — the application list grows from 0 to 1 entries after closure. -/
theorem add_application_after_close_appends :
    (dget c1_closed_state.applications "m1").map (·.status) = some "closed" ∧
    (dget c1_closed_state.applications "m1").map (fun sess => sess.applications.length)
      = some 0 ∧
    (add_application c1_closed_state "m1" 7 "G" ["2024-07-11"] "" 20).1.success = true ∧
    (dget (add_application c1_closed_state "m1" 7 "G" ["2024-07-11"] "" 20).2.applications
        "m1").map (fun sess => sess.applications.length) = some 1 := by
  decide

/-- C1 amended: closure alone does not block `add_application` (there is no
status check); a closed session's application list is guaranteed unchanged
only once the deadline has passed, because the deadline check then rejects
every submission and returns the state untouched. -/
theorem closed_session_unchanged_after_deadline (s : ManagerState) (mid : String)
    (sess : Session) (uid : Int) (un : String) (dates : List String) (info : String)
    (now : Int) (h : dget s.applications mid = some sess)
    (_hst : sess.status = "closed") (hd : sess.deadline < now) :
    add_application s mid uid un dates info now
      = (⟨false, some errDeadlinePassed, none, none⟩, s) := by
  simp [add_application, h, hd]

/-- Witness for C1's amended claim: a submission against the closed session
after its deadline is rejected and the state is returned unchanged. -/
theorem closed_session_unchanged_after_deadline_witness :
    dget c1_closed_state.applications "m1" = some c1_closed_session ∧
    c1_closed_session.status = "closed" ∧
    add_application c1_closed_state "m1" 7 "G" ["2024-07-11"] "" 500000
      = (⟨false, some errDeadlinePassed, none, none⟩, c1_closed_state) :=
  ⟨by decide, by decide,
   closed_session_unchanged_after_deadline c1_closed_state "m1" c1_closed_session
     7 "G" ["2024-07-11"] "" 500000 (by decide) (by decide) (by decide)⟩

/-- Two sessions `"s1"`, `"s2"`; user 7 submits to `"s1"`. -/
def c2_state2 : ManagerState :=
  (add_application
    (create_application_session (create_application_session demo_state0 "s1" 10 0 5)
      "s2" 11 0 5)
    "s1" 7 "U" ["2024-07-10"] "" 10).2

/-- ... then user 7 also submits to `"s2"`, which overwrites their user-index
entry. -/
def c2_state3 : ManagerState :=
  (add_application c2_state2 "s2" 7 "U" ["2024-07-11"] "" 20).2

/-- C2 counterexample: user 7 already has an application in `"s1"` (which
still accepts submissions), yet after the intervening submission to `"s2"` a
second `add_application` for (`"s1"`, user 7) succeeds and grows the list to
two entries instead of failing with the duplicate error. -/
theorem add_application_duplicate_after_interleave :
    (dget c2_state3.applications "s1").map (fun sess => sess.applications.map (·.user_id))
      = some [7] ∧
    (add_application c2_state3 "s1" 7 "U" ["2024-07-12"] "" 30).1.success = true ∧
    (add_application c2_state3 "s1" 7 "U" ["2024-07-12"] "" 30).1.error = none ∧
    (dget (add_application c2_state3 "s1" 7 "U" ["2024-07-12"] "" 30).2.applications
        "s1").map (fun sess => sess.applications.length) = some 2 := by
  decide

/-- C2 amended: the duplicate rejection holds exactly when the user-index
entry for the user still points at this session (in particular whenever the
user has not successfully submitted to a different session in between): the
call then fails with the duplicate error and the state — hence the
application list length — is unchanged. -/
theorem add_application_duplicate_rule (s : ManagerState) (mid : String)
    (sess : Session) (uid : Int) (e : UserApp) (un : String) (dates : List String)
    (info : String) (now : Int)
    (h : dget s.applications mid = some sess) (hd : ¬ sess.deadline < now)
    (hu : dget s.user_applications (toString uid) = some e)
    (hm : e.message_id = mid) :
    add_application s mid uid un dates info now
      = (⟨false, some errDuplicateSubmission, none, none⟩, s) := by
  simp [add_application, h, hd, is_duplicate, hu, hm]

/-- Witness for C2's amended claim: an immediate second submission by user 7
to `"s1"` (no intervening submission elsewhere) is rejected as a duplicate
and leaves the state unchanged. -/
theorem add_application_duplicate_rule_witness :
    dget c2_state2.user_applications "7" = some ⟨"s1", 10⟩ ∧
    add_application c2_state2 "s1" 7 "U" ["2024-07-12"] "" 30
      = (⟨false, some errDuplicateSubmission, none, none⟩, c2_state2) :=
  ⟨by decide,
   add_application_duplicate_rule c2_state2 "s1"
     { applications := [⟨7, "U", ["2024-07-10"], "", 10⟩], deadline := 432000,
       channel_id := 10, created_at := 0, status := "active", closed_at := none }
     7 ⟨"s1", 10⟩ "U" ["2024-07-12"] "" 30
     (by decide) (by decide) (by decide) (by decide)⟩

/-- C10 (confirmed, implicit claim).  Re-creating a session under an already
used identifier resets its application list to empty but leaves the user
index untouched; a user whose index entry still points at that identifier is
then rejected as a duplicate (deadline not passed) even though the fresh
session holds no application of theirs. -/
theorem recreate_session_stale_duplicate (s : ManagerState) (mid : String)
    (uid : Int) (e : UserApp) (ch now days tNew : Int) (un : String)
    (dates : List String) (info : String)
    (hu : dget s.user_applications (toString uid) = some e)
    (hm : e.message_id = mid)
    (hd : ¬ (now + days * dayLength) < tNew) :
    (dget (create_application_session s mid ch now days).applications mid).map
        (·.applications) = some [] ∧
    add_application (create_application_session s mid ch now days) mid uid un dates
        info tNew
      = (⟨false, some errDuplicateSubmission, none, none⟩,
         create_application_session s mid ch now days) := by
  have happ : dget (create_application_session s mid ch now days).applications mid
      = some { applications := [], deadline := now + days * dayLength, channel_id := ch,
               created_at := now, status := "active", closed_at := none } := by
    simp [create_application_session, save_data]
    exact dget_dinsert_self _ _ _
  have huser : (create_application_session s mid ch now days).user_applications
      = s.user_applications := rfl
  refine ⟨by simp [happ], ?_⟩
  simp [add_application, happ, hd, is_duplicate, huser, hu, hm]

/-- Witness for C10: re-create `"m1"` over the demo state at time 1000; user
1 (who had submitted before the overwrite) is rejected as a duplicate at time
1500 although the fresh `"m1"` session contains no applications at all. -/
theorem recreate_session_stale_duplicate_witness :
    dget demo_state3.user_applications "1" = some ⟨"m1", 100⟩ ∧
    (dget (create_application_session demo_state3 "m1" 10 1000 5).applications "m1").map
        (·.applications) = some [] ∧
    add_application (create_application_session demo_state3 "m1" 10 1000 5) "m1" 1 "A"
        ["2024-07-20"] "" 1500
      = (⟨false, some errDuplicateSubmission, none, none⟩,
         create_application_session demo_state3 "m1" 10 1000 5) :=
  ⟨by decide,
   (recreate_session_stale_duplicate demo_state3 "m1" 1 ⟨"m1", 100⟩ 10 1000 5 1500 "A"
     ["2024-07-20"] "" (by decide) (by decide) (by decide)).1,
   (recreate_session_stale_duplicate demo_state3 "m1" 1 ⟨"m1", 100⟩ 10 1000 5 1500 "A"
     ["2024-07-20"] "" (by decide) (by decide) (by decide)).2⟩

/-! ### Cleanup (C6) -/

/-- A session created at time 0 (40 days before `c6_now`). -/
def c6_old_session : Session :=
  { applications := [], deadline := 432000, channel_id := 10, created_at := 0,
    status := "active", closed_at := none }

/-- A session created 10 days before `c6_now`. -/
def c6_new_session : Session :=
  { applications := [], deadline := 3888000, channel_id := 11, created_at := 2592000,
    status := "active", closed_at := none }

/-- 40 days after the old session's creation. -/
def c6_now : Int := 3456000

/-- Registry holding both sessions and one user-index entry for each. -/
def c6_state : ManagerState :=
  ⟨[("old", c6_old_session), ("new", c6_new_session)],
   [("1", ⟨"old", 100⟩), ("2", ⟨"new", 2592100⟩)],
   manager_doc [] []⟩

/-- C6 counterexample: `cleanup_old_sessions(30)` removes the 40-day-old
session (2 sessions → 1) and its user-index entry, but the function body has
no `return` statement — it returns Python `None`, not the number of sessions
removed. -/
theorem cleanup_returns_no_count :
    (cleanup_old_sessions c6_state 30 c6_now).2.applications.length = 1 ∧
    c6_state.applications.length = 2 ∧
    (cleanup_old_sessions c6_state 30 c6_now).1 = none := by
  decide

/-- C6 amended: `cleanup_old_sessions(days)` keeps exactly the sessions
created at or after `now - days` (removing the strictly older ones), removes
exactly the user-index entries that pointed at a removed session, and
returns no value (Python `None`) rather than the number of sessions removed. -/
theorem cleanup_old_sessions_spec (s : ManagerState) (days now : Int)
    (hnda : (dkeys s.applications).Nodup) (hndu : (dkeys s.user_applications).Nodup) :
    (cleanup_old_sessions s days now).1 = none ∧
    (∀ mid sess, dget (cleanup_old_sessions s days now).2.applications mid = some sess ↔
        dget s.applications mid = some sess ∧
          ¬ sess.created_at < now - days * dayLength) ∧
    (∀ u e, dget (cleanup_old_sessions s days now).2.user_applications u = some e ↔
        dget s.user_applications u = some e ∧
          ¬ ∃ sess, dget s.applications e.message_id = some sess ∧
              sess.created_at < now - days * dayLength) := by
  have happ : (cleanup_old_sessions s days now).2.applications
      = s.applications.filter (fun p => !decide (p.2.created_at < now - days * dayLength)) := by
    simp only [cleanup_old_sessions]
    split <;> rfl
  have hua : (cleanup_old_sessions s days now).2.user_applications
      = s.user_applications.filter (fun p => !decide (p.2.message_id ∈
          ((s.applications.filter
            (fun p => decide (p.2.created_at < now - days * dayLength))).map (·.1)))) := by
    simp only [cleanup_old_sessions]
    split <;> rfl
  have hto : ∀ mid' : String,
      mid' ∈ (s.applications.filter
          (fun p => decide (p.2.created_at < now - days * dayLength))).map (·.1) ↔
        ∃ sess, dget s.applications mid' = some sess ∧
          sess.created_at < now - days * dayLength := by
    intro mid'
    simp only [List.mem_map, List.mem_filter]
    constructor
    · rintro ⟨⟨k, v⟩, ⟨hmem, hpred⟩, rfl⟩
      exact ⟨v, (dget_eq_some_iff_mem _ _ _ hnda).mpr hmem, by simpa using hpred⟩
    · rintro ⟨sess, hget, hlt⟩
      exact ⟨(mid', sess), ⟨(dget_eq_some_iff_mem _ _ _ hnda).mp hget, by simpa using hlt⟩,
             rfl⟩
  refine ⟨rfl, ?_, ?_⟩
  · intro mid sess
    rw [happ, dget_filter _ _ _ _ hnda]
    simp
  · intro u e
    rw [hua, dget_filter _ _ _ _ hndu]
    simp only [Bool.not_eq_true', decide_eq_false_iff_not]
    rw [hto]

/-- Witness for C6's amended claim: on the two-session registry, cleanup
returns `None`; the 40-day-old session is exactly the deleted one, and user
2's entry (pointing at the younger session) survives while user 1's does
not. -/
theorem cleanup_old_sessions_spec_witness :
    ((dkeys c6_state.applications).Nodup ∧ (dkeys c6_state.user_applications).Nodup) ∧
    ((cleanup_old_sessions c6_state 30 c6_now).1 = none ∧
     (∀ mid sess,
        dget (cleanup_old_sessions c6_state 30 c6_now).2.applications mid = some sess ↔
          dget c6_state.applications mid = some sess ∧
            ¬ sess.created_at < c6_now - 30 * dayLength) ∧
     (∀ u e, dget (cleanup_old_sessions c6_state 30 c6_now).2.user_applications u = some e ↔
        dget c6_state.user_applications u = some e ∧
          ¬ ∃ sess, dget c6_state.applications e.message_id = some sess ∧
              sess.created_at < c6_now - 30 * dayLength)) :=
  ⟨⟨by decide, by decide⟩,
   cleanup_old_sessions_spec c6_state 30 c6_now (by decide) (by decide)⟩

/-! ### Trend analysis (C7) and analytics persistence (C8) -/

/-- An analytics store with no data at all. -/
def c7_empty_analytics : AnalyticsState := ⟨[], [], [], [], [], [], none⟩

/-- C7 counterexample: with zero populated week buckets in the window the
source returns the error dict `{'error': ...}` — there is no `growth_rate`
key at all, rather than a growth rate of 0. -/
theorem get_trend_analysis_empty_window :
    get_trend_analysis c7_empty_analytics 100 8
      = ⟨some errNoTrendData, [], none, none⟩ := by
  decide

theorem filterMap_week_keys (tr : List (Int × TrendEntry)) (ws : List Int) :
    ((ws.filterMap (fun w =>
        match dget tr w with
        | some td => some (⟨w, td.applications, td.unique_users.length⟩ : TrendRow)
        | none => none)).map (·.week))
      = ws.filter (fun w => (dget tr w).isSome) := by
  induction ws with
  | nil => rfl
  | cons w ws ih =>
      cases h : dget tr w with
      | none => simp [List.filterMap_cons, List.filter_cons, h, ih]
      | some td => simp [List.filterMap_cons, List.filter_cons, h, ih]

theorem trend_rows_weeks (tr : List (Int × TrendEntry)) (nw : Int) (weeks : Nat) :
    (trend_rows tr nw weeks).map (·.week)
      = ((List.range weeks).map (fun i => nw - (i : Int))).filter
          (fun w => (dget tr w).isSome) := by
  have hrw : trend_rows tr nw weeks
      = ((List.range weeks).map (fun i => nw - (i : Int))).filterMap (fun w =>
          match dget tr w with
          | some td => some ⟨w, td.applications, td.unique_users.length⟩
          | none => none) := by
    rw [List.filterMap_map]
    rfl
  rw [hrw, filterMap_week_keys]

/-- C7 amended: the scanned rows are exactly the populated week buckets among
the window's week keys, most recent first; `growth_rate` is the exact percent
change between the two most recent populated buckets (0 when the older count
is 0, and rounded to two decimals by the source's float reporting), is 0 when
exactly one bucket is populated, and is absent — the call returns the error
dict — when no bucket is populated. -/
theorem get_trend_analysis_growth_spec (a : AnalyticsState) (now_week : Int)
    (weeks : Nat) :
    (trend_rows a.trends now_week weeks).map (·.week)
        = ((List.range weeks).map (fun i => now_week - (i : Int))).filter
            (fun w => (dget a.trends w).isSome) ∧
    (trend_rows a.trends now_week weeks = [] →
      get_trend_analysis a now_week weeks = ⟨some errNoTrendData, [], none, none⟩) ∧
    (∀ t, trend_rows a.trends now_week weeks = [t] →
      (get_trend_analysis a now_week weeks).growth_rate = some 0) ∧
    (∀ t0 t1 rest, trend_rows a.trends now_week weeks = t0 :: t1 :: rest →
      (get_trend_analysis a now_week weeks).growth_rate
        = some (if 0 < t1.applications then
            (((t0.applications : ℚ) - (t1.applications : ℚ)) / (t1.applications : ℚ)) * 100
          else 0)) := by
  refine ⟨trend_rows_weeks _ _ _, ?_, ?_, ?_⟩
  · intro h
    simp [get_trend_analysis, h]
  · intro t h
    simp [get_trend_analysis, h]
  · intro t0 t1 rest h
    simp [get_trend_analysis, h]

/-- An analytics store with week buckets 99 (3 applications) and 100
(6 applications) populated. -/
def c7_two_weeks : AnalyticsState :=
  ⟨[], [], [], [], [],
   [(99, ⟨3, [1], 0⟩), (100, ⟨6, [1, 2], 0⟩)], none⟩

/-- Witness for C7's amended claim: at week 100 the two populated buckets
are scanned most recent first and the growth rate is (6-3)/3·100 = 100%. -/
theorem get_trend_analysis_growth_spec_witness :
    trend_rows c7_two_weeks.trends 100 8 = [⟨100, 6, 2⟩, ⟨99, 3, 1⟩] ∧
    (get_trend_analysis c7_two_weeks 100 8).growth_rate = some 100 :=
  ⟨by decide, by
    rw [(get_trend_analysis_growth_spec c7_two_weeks 100 8).2.2.2
        ⟨100, 6, 2⟩ ⟨99, 3, 1⟩ [] (by decide)]
    norm_num⟩

theorem json_encodable_dict_eq (kvs : List (String × PyVal)) :
    json_encodable (.dict kvs) = json_encodable_entries kvs := by
  simp [json_encodable]

theorem json_encodable_entries_cons_eq (k : String) (v : PyVal)
    (r : List (String × PyVal)) :
    json_encodable_entries ((k, v) :: r) = (json_encodable v && json_encodable_entries r) := by
  simp [json_encodable_entries]

theorem month_doc_not_encodable (b : MonthStats) :
    json_encodable (month_doc b) = false := by
  simp [month_doc, json_encodable, json_encodable_entries]

theorem analytics_doc_not_encodable (a : AnalyticsState) (hne : a.monthly_stats ≠ []) :
    json_encodable (analytics_doc a) = false := by
  cases hms : a.monthly_stats with
  | nil => exact absurd hms hne
  | cons hd tl =>
      obtain ⟨k, b⟩ := hd
      simp only [analytics_doc, hms, List.map_cons, json_encodable_dict_eq,
                 json_encodable_entries_cons_eq, month_doc_not_encodable]
      simp

/-- C8 (code bug).  After any `record_application` call the in-memory
monthly bucket holds a Python `set` (`unique_users`), which `json.dump`
cannot serialise: `_save_data`'s dump raises `TypeError`, the exception is
swallowed, and the persisted analytics document never reflects the updated
counters — the disk content is whatever it was before the call.  (Nor does
`_load_data` convert any list back into a set.) -/
theorem record_application_never_persists (a : AnalyticsState) (ev : AppEvent)
    (clk : Clock) :
    json_encodable (analytics_doc
      { a with
        monthly_stats := update_monthly_stats a.monthly_stats clk.month ev,
        user_participation := update_user_participation a.user_participation ev,
        popular_hourly := cinc a.popular_hourly clk.hour,
        popular_daily := cinc a.popular_daily clk.weekday,
        channel_performance := update_channel_performance a.channel_performance ev,
        trends := update_trends a.trends clk.week ev }) = false ∧
    (record_application a ev clk).disk = a.disk := by
  have hne : update_monthly_stats a.monthly_stats clk.month ev ≠ [] := by
    unfold update_monthly_stats
    exact dinsert_ne_nil _ _ _
  have hX := analytics_doc_not_encodable
    { a with
      monthly_stats := update_monthly_stats a.monthly_stats clk.month ev,
      user_participation := update_user_participation a.user_participation ev,
      popular_hourly := cinc a.popular_hourly clk.hour,
      popular_daily := cinc a.popular_daily clk.weekday,
      channel_performance := update_channel_performance a.channel_performance ev,
      trends := update_trends a.trends clk.week ev } hne
  refine ⟨hX, ?_⟩
  unfold record_application analytics_save
  simp [hX]
